import Mathlib

/-!
Verification development for the Austin City Council meeting monitor
(`austin_meeting_monitor_gemini.py` and `streamlit_dashboard.py`).

The Python program is shallowly embedded: Python strings become `String`
(operated on through their `List Char` data so every definition reduces in
the kernel), the SQLite `meetings` table becomes a `List MeetingRow` in
insertion (rowid) order, and every external effect (HTTP fetches, PDF
download/extraction, the Gemini call, the Discord webhook) becomes a field
of an explicit environment record `Env`, so one run of the orchestrator is
a pure function of the environment and the starting table.
-/

namespace AustinMonitor

/-! ### Python string primitives

Python `str` operations used by the program, embedded on code-point lists.
(`str.strip`/`lower`/`upper` are modelled on the ASCII range the program
actually manipulates; Python slices `s[:n]` / `s[n:]` act on code points,
exactly like `List.take` / `List.drop` on `s.data`.) -/

/-- Whitespace recognised by Python `str.strip()` (ASCII range). -/
def isPyWhitespace (c : Char) : Bool :=
  c = ' ' || c = '\t' || c = '\n' || c = '\r' || c = '\x0b' || c = '\x0c'

/-- Python `s.strip()`. -/
def pyStrip (s : String) : String :=
  String.mk (((s.toList.dropWhile isPyWhitespace).reverse.dropWhile isPyWhitespace).reverse)

/-- Python `s[:n]` (slice of the first `n` code points). -/
def pySlice (s : String) (n : Nat) : String :=
  String.mk (s.toList.take n)

/-- Python `s[n:]`. -/
def pyDropSlice (s : String) (n : Nat) : String :=
  String.mk (s.toList.drop n)

/-- Python `s.lower()` (ASCII case fold, the range the program uses). -/
def asciiLower (c : Char) : Char :=
  if 'A' ≤ c ∧ c ≤ 'Z' then Char.ofNat (c.toNat + 32) else c

/-- Python `s.upper()` (ASCII case fold). -/
def asciiUpper (c : Char) : Char :=
  if 'a' ≤ c ∧ c ≤ 'z' then Char.ofNat (c.toNat - 32) else c

def pyLower (s : String) : String := String.mk (s.toList.map asciiLower)

def pyUpper (s : String) : String := String.mk (s.toList.map asciiUpper)

/-- Python `text.split('\n')`: keeps empty pieces, `"".split` gives `[""]`. -/
def splitLinesAux : List Char → List (List Char)
  | [] => [[]]
  | c :: rest =>
    if c = '\n' then [] :: splitLinesAux rest
    else
      match splitLinesAux rest with
      | [] => [[c]]
      | l :: ls => (c :: l) :: ls

def pySplitNl (s : String) : List String :=
  (splitLinesAux s.toList).map String.mk

/-- Python `pat in s` (substring containment). -/
def containsAux (pat : List Char) : List Char → Bool
  | [] => pat.isEmpty
  | c :: rest => pat.isPrefixOf (c :: rest) || containsAux pat rest

def strContains (s pat : String) : Bool := containsAux pat.toList s.toList

/-- Python `s.endswith(suf)`. -/
def strEndsWith (s suf : String) : Bool := suf.toList.isSuffixOf s.toList

/-- Lexicographic (code point, = SQLite BINARY collation on the ASCII dates
stored by the program) order on strings: `lexLe a b` means `a ≤ b`. -/
def lexLe : List Char → List Char → Bool
  | [], _ => true
  | _ :: _, [] => false
  | a :: as, b :: bs => if a = b then lexLe as bs else decide (a < b)

/-! ### Data model

One row of the SQLite `meetings` table (`init_database`), and the candidate
dictionaries built by `check_for_new_meetings` / returned by
`process_new_meeting`. -/

/-- A hyperlink element of a fetched HTML page: `href` attribute and the
visible text (`link.get_text()`). -/
structure Link where
  href : String
  text : String
deriving DecidableEq, Repr

/-- The dictionary built for a new meeting by `check_for_new_meetings`. -/
structure MeetingData where
  id : String
  date : String
  meeting_type : String
  url : String
  link_text : String
deriving DecidableEq, Repr

/-- One row of the `meetings` table. -/
structure MeetingRow where
  id : String
  date : String
  meeting_type : String
  url : String
  agenda_url : Option String
  summary : String
  discovered_at : String
  notified_at : Option String
deriving DecidableEq, Repr

/-- The dictionary returned by `process_new_meeting`
(`{**meeting_data, 'agenda_url': ..., 'summary': ...}`). -/
structure Processed where
  id : String
  date : String
  meeting_type : String
  url : String
  link_text : String
  agenda_url : Option String
  summary : String
deriving DecidableEq, Repr

/-- Database errors surfaced by the embedded store: SQLite raises
`IntegrityError` when `INSERT` hits an existing primary key. -/
inductive DbError where
  | duplicateKey
deriving DecidableEq, Repr

/-- The external world of one run: every I/O call of the program becomes a
field, so the orchestrator is a pure function of `Env` and the table.
* `joinUrl base href` stands for `urllib.parse.urljoin`;
* `fetchListing` / `fetchDetail` are the two page fetches (`.error` = any
  exception: timeout, HTTP error, parse failure);
* `downloadPdf url` is the outcome of `download_pdf` for that URL;
* `extractText path` is `extract_text_from_pdf` on the temp file written
  for that meeting (`none` = extraction error or no library);
* `gemini_model` is `self.gemini_model`: `none` when unconfigured,
  otherwise the outcome of `generate_content(...).text` per prompt;
* `notify info hook` is the success of the webhook POST inside
  `send_discord_notification`;
* `now` is `datetime.now().isoformat()`. -/
structure Env where
  joinUrl : String → String → String
  fetchListing : Except Unit (List Link)
  fetchDetail : String → Except Unit (List Link)
  downloadPdf : String → Bool
  extractText : String → Option String
  gemini_model : Option (String → Except Unit String)
  notify : Processed → String → Bool
  now : String

/-! ### `extract_meeting_id`

`re.search(r'/(\d{8}-[a-z]+)\.htm', url)`: scan positions left to right;
at a position the pattern needs `/`, exactly eight digits, `-`, a maximal
non-empty run of `[a-z]` (greedy; no shorter run can be followed by `.`,
so greedy = backtracking here), then the literal `.htm`.  The captured
group is digits-dash-letters. -/

def isLowerAlpha (c : Char) : Bool := 'a' ≤ c && c ≤ 'z'

/-- Try the regex at one position (the head of `cs`). -/
def meetingIdAt (cs : List Char) : Option (List Char) :=
  match cs with
  | '/' :: rest =>
    let digits := rest.take 8
    if digits.length = 8 ∧ digits.all Char.isDigit then
      match rest.drop 8 with
      | '-' :: rest2 =>
        let run := rest2.takeWhile isLowerAlpha
        let after := rest2.dropWhile isLowerAlpha
        if run ≠ [] ∧ after.take 4 = ['.', 'h', 't', 'm'] then
          some (digits ++ '-' :: run)
        else none
      | _ => none
    else none
  | _ => none

/-- `re.search`: first position at which the pattern matches. -/
def searchMeetingId : List Char → Option (List Char)
  | [] => none
  | c :: rest =>
    match meetingIdAt (c :: rest) with
    | some g => some g
    | none => searchMeetingId rest

/-- `extract_meeting_id(url)`: the captured group, or `None`. -/
def extract_meeting_id (url : String) : Option String :=
  (searchMeetingId url.toList).map String.mk

/-! ### Date formatting inside `check_for_new_meetings`

`datetime.strptime(date_str, '%Y%m%d')` followed by
`strftime('%Y-%m-%d')`; on `ValueError` the raw digit string is kept. -/

def digitVal (c : Char) : Nat := c.toNat - '0'.toNat

def natOfDigits (cs : List Char) : Nat :=
  cs.foldl (fun a c => 10 * a + digitVal c) 0

def isLeapYear (y : Nat) : Bool :=
  (y % 4 = 0 && y % 100 ≠ 0) || y % 400 = 0

def daysInMonth (y m : Nat) : Nat :=
  if m = 2 then (if isLeapYear y then 29 else 28)
  else if m = 4 ∨ m = 6 ∨ m = 9 ∨ m = 11 then 30
  else 31

/-- `strptime '%Y%m%d'` succeeds iff the 8 characters are digits forming a
valid proleptic-Gregorian calendar date with year ≥ 1. -/
def format_date (s : String) : String :=
  let cs := s.toList
  if cs.length = 8 ∧ cs.all Char.isDigit then
    let y := natOfDigits (cs.take 4)
    let m := natOfDigits ((cs.drop 4).take 2)
    let d := natOfDigits (cs.drop 6)
    if 1 ≤ y ∧ 1 ≤ m ∧ m ≤ 12 ∧ 1 ≤ d ∧ d ≤ daysInMonth y m then
      String.mk (cs.take 4) ++ "-" ++ String.mk ((cs.drop 4).take 2) ++ "-"
        ++ String.mk (cs.drop 6)
    else s
  else s

/-! ### `format_meeting_type` -/

/-- The `type_map` dictionary. -/
def type_map : List (String × String) :=
  [("reg", "Regular Meeting"),
   ("wrk", "Work Session"),
   ("spec", "Special Called Meeting"),
   ("afc", "Audit & Finance Committee"),
   ("mobc", "Mobility Committee"),
   ("phc", "Public Health Committee"),
   ("hpc", "Housing & Planning Committee"),
   ("cwepc", "Climate, Water, Energy & Public Enterprises Committee"),
   ("psc", "Public Safety Committee"),
   ("eoc", "Economic Opportunity Committee")]

/-- `type_map.get(type_code, type_code.upper())`. -/
def format_meeting_type (type_code : String) : String :=
  match type_map.lookup type_code with
  | some label => label
  | none => pyUpper type_code

/-! ### Store operations (`meetings` table, insertion order = rowid order) -/

/-- `meeting_exists`: `SELECT id FROM meetings WHERE id = ?`. -/
def meeting_exists (db : List MeetingRow) (mid : String) : Bool :=
  db.any (fun r => r.id == mid)

/-- The row written by `save_meeting`'s `INSERT` (no `notified_at`). -/
def new_row (md : MeetingData) (agenda_url : Option String) (summary now : String) :
    MeetingRow :=
  { id := md.id, date := md.date, meeting_type := md.meeting_type, url := md.url
    agenda_url := agenda_url, summary := summary, discovered_at := now
    notified_at := none }

/-- `save_meeting`: a plain `INSERT INTO meetings ...`; SQLite raises
`IntegrityError` when the primary key already exists, otherwise the row is
appended. -/
def save_meeting (db : List MeetingRow) (md : MeetingData)
    (agenda_url : Option String) (summary now : String) :
    Except DbError (List MeetingRow) :=
  if meeting_exists db md.id then .error .duplicateKey
  else .ok (db ++ [new_row md agenda_url summary now])

/-- `UPDATE meetings SET notified_at = ? WHERE id = ?` (in `run_check_cycle`). -/
def mark_notified (db : List MeetingRow) (mid ts : String) : List MeetingRow :=
  db.map (fun r => if r.id == mid then { r with notified_at := some ts } else r)

/-- First row with the given id (an id occurs at most once by the PK). -/
def findRow (db : List MeetingRow) (mid : String) : Option MeetingRow :=
  db.find? (fun r => r.id == mid)

/-! ### `check_for_new_meetings` -/

/-- Loop body of `check_for_new_meetings` over the listing page's links:
links matching `/\d{8}-[a-z]+\.htm` whose id is not yet stored become
candidate dictionaries. -/
def check_for_new_meetings (env : Env) (base : String) (db : List MeetingRow)
    (links : List Link) : List MeetingData :=
  links.filterMap (fun l =>
    match extract_meeting_id l.href with
    | none => none
    | some mid =>
      if meeting_exists db mid then none
      else
        some { id := mid
               date := format_date (pySlice mid 8)
               meeting_type := format_meeting_type (pyDropSlice mid 9)
               url := env.joinUrl base l.href
               link_text := pyStrip l.text })

/-! ### `get_agenda_url` -/

/-- `'agenda' in link_text.lower() and (href.endswith('.pdf') or
'document.cfm?id=' in href)`. -/
def agenda_link_pred (l : Link) : Bool :=
  strContains (pyLower l.text) "agenda"
    && (strEndsWith l.href ".pdf" || strContains l.href "document.cfm?id=")

/-- `get_agenda_url`: first qualifying link of the fetched detail page,
absolutized with `urljoin`; `None` when the fetch raises or nothing
qualifies. -/
def get_agenda_url (env : Env) (meeting_url : String) : Option String :=
  match env.fetchDetail meeting_url with
  | .error _ => none
  | .ok links =>
    (links.find? agenda_link_pred).map (fun l => env.joinUrl meeting_url l.href)

/-! ### `_simple_summary` (fallback summarizer) -/

def simpleHeading : String := "📋 Key agenda items:\n\n"

def simpleDisclaimer : String :=
  "\n(Note: This is a basic extraction. Add Gemini API key for AI-powered summaries)"

/-- `[line.strip() for line in text.split('\n') if len(line.strip()) > 20]`. -/
def simple_summary_lines (text : String) : List String :=
  ((pySplitNl text).map pyStrip).filter (fun l => decide (20 < l.length))

/-- One bullet: `f"{i}. {line[:150]}...\n"`. -/
def bulletStr (i : Nat) (l : String) : String :=
  Nat.repr i ++ ". " ++ pySlice l 150 ++ "...\n"

/-- The `for i, line in enumerate(lines[:5], 1): summary += ...` loop. -/
def addBullets : String → Nat → List String → String
  | acc, _, [] => acc
  | acc, i, l :: ls => addBullets (acc ++ bulletStr i l) (i + 1) ls

def simple_summary (text : String) : String :=
  addBullets simpleHeading 1 ((simple_summary_lines text).take 5) ++ simpleDisclaimer

/-! ### `summarize_agenda` -/

/-- The f-string prompt up to the interpolated agenda text. -/
def geminiPromptPrefix : String :=
  "Summarize this Austin City Council agenda in 3-5 bullet points. \nFocus on the most important items, public hearings, and policy decisions.\nKeep it concise and accessible to the general public.\n\nAgenda text:\n"

/-- The full prompt: the fixed prefix followed by `agenda_text[:100000]`. -/
def geminiPrompt (agenda_text : String) : String :=
  geminiPromptPrefix ++ pySlice agenda_text 100000

/-- `summarize_agenda`: fallback when unconfigured; otherwise
`generate_content(prompt).text.strip()`, falling back on any exception. -/
def summarize_agenda (model : Option (String → Except Unit String))
    (agenda_text : String) : String :=
  match model with
  | none => simple_summary agenda_text
  | some g =>
    match g (geminiPrompt agenda_text) with
    | .ok reply => pyStrip reply
    | .error _ => simple_summary agenda_text

/-! ### `process_new_meeting` and the run cycle -/

def sentinel_no_agenda : String := "Agenda not yet available. Check back later."

def sentinel_download_failed : String := "Failed to download agenda PDF"

def sentinel_no_text : String := "Unable to extract text from agenda PDF"

/-- `f"temp_agenda_{meeting_data['id']}.pdf"`. -/
def tempPdfPath (mid : String) : String := "temp_agenda_" ++ mid ++ ".pdf"

/-- `{**meeting_data, 'agenda_url': agenda_url, 'summary': summary}`. -/
def processed_of (md : MeetingData) (agenda_url : Option String) (summary : String) :
    Processed :=
  { id := md.id, date := md.date, meeting_type := md.meeting_type
    url := md.url, link_text := md.link_text
    agenda_url := agenda_url, summary := summary }

/-- The `if not agenda_url ... else ...` chain of `process_new_meeting`
computing the summary: no agenda link, failed download and empty
extraction each degrade to their sentinel (`if agenda_text:` is Python
truthiness, so `None` and the empty string both degrade). -/
def summary_for (env : Env) (mid : String) (agenda_url : Option String) : String :=
  match agenda_url with
  | none => sentinel_no_agenda
  | some au =>
    if env.downloadPdf au then
      match env.extractText (tempPdfPath mid) with
      | some t => if 0 < t.length then summarize_agenda env.gemini_model t
                  else sentinel_no_text
      | none => sentinel_no_text
    else sentinel_download_failed

/-- `process_new_meeting`: resolve the agenda, download, extract, summarize
(each failure degrading to its sentinel), then `save_meeting`; the
`IntegrityError` of a duplicate insert propagates (there is no handler). -/
def process_new_meeting (env : Env) (db : List MeetingRow) (md : MeetingData) :
    Except DbError (List MeetingRow × Processed) :=
  let agenda_url := get_agenda_url env md.url
  let summary := summary_for env md.id agenda_url
  match save_meeting db md agenda_url summary env.now with
  | .error e => .error e
  | .ok db2 => .ok (db2, processed_of md agenda_url summary)

/-- The `for meeting_data in new_meetings` loop of `run_check_cycle`: process,
then — whenever a webhook URL is configured — call
`send_discord_notification` and unconditionally run the `UPDATE ...
SET notified_at` (the boolean result of the send is discarded). The
`time.sleep(2)` pacing has no observable effect on the state and is not
modelled. -/
def run_check_cycle_loop (env : Env) (webhook : Option String) :
    List MeetingRow → List MeetingData →
    Except DbError (List MeetingRow × List Processed)
  | db, [] => .ok (db, [])
  | db, md :: rest =>
    match process_new_meeting env db md with
    | .error e => .error e
    | .ok (db1, info) =>
      let db2 :=
        match webhook with
        | some hook =>
          let _ := env.notify info hook
          mark_notified db1 md.id env.now
        | none => db1
      match run_check_cycle_loop env webhook db2 rest with
      | .error e => .error e
      | .ok (db3, ps) => .ok (db3, info :: ps)

/-- `run_check_cycle`: discovery (any exception inside
`check_for_new_meetings` yields the empty candidate list), early return on
no candidates, then the per-meeting loop. -/
def run_check_cycle (env : Env) (base : String) (webhook : Option String)
    (db : List MeetingRow) : Except DbError (List MeetingRow × List Processed) :=
  let new_meetings :=
    match env.fetchListing with
    | .error _ => []
    | .ok links => check_for_new_meetings env base db links
  run_check_cycle_loop env webhook db new_meetings

/-! ### `get_recent_meetings` (and the dashboard's `get_meetings`)

`SELECT ... FROM meetings ORDER BY date DESC LIMIT ?`.  SQLite's `ORDER BY`
fixes only the key order: the relative order of rows whose `date` (TEXT,
BINARY collation) compares equal is NOT specified by the query — there is
no secondary sort key.  The query is therefore embedded as a postcondition
relating the table (in insertion order) to any admissible result list. -/

/-- `a` may precede `b` under `ORDER BY date DESC`. -/
def dateGe (a b : MeetingRow) : Prop :=
  lexLe b.date.toList a.date.toList = true

instance : DecidableRel dateGe :=
  fun a b => decEq (lexLe b.date.toList a.date.toList) true

/-- Admissible results of `get_recent_meetings db limit`: the first `limit`
rows of some permutation of the table that is sorted by date descending. -/
def get_recent_meetings_post (db : List MeetingRow) (limit : Nat)
    (r : List MeetingRow) : Prop :=
  ∃ p : List MeetingRow, db.Perm p ∧ List.Pairwise dateGe p ∧ r = p.take limit

/-- Insert before the first strictly smaller date (stable for equal dates
when folded from the left). -/
def insertDesc (r : MeetingRow) : List MeetingRow → List MeetingRow
  | [] => [r]
  | x :: xs => if lexLe x.date.toList r.date.toList = true ∧ x.date ≠ r.date
               then r :: x :: xs else x :: insertDesc r xs

/-- Stable sort by date descending (insertion order preserved on ties). -/
def stable_sort_desc (db : List MeetingRow) : List MeetingRow :=
  db.foldl (fun acc r => insertDesc r acc) []

/-- The result `get_recent_meetings` would have to produce if ties were
guaranteed to keep insertion order. -/
def stable_recent (db : List MeetingRow) (limit : Nat) : List MeetingRow :=
  (stable_sort_desc db).take limit

/-! ### General lemmas about the embedded operations -/

theorem str_length_append (a b : String) : (a ++ b).length = a.length + b.length := by
  cases a with
  | mk da =>
    cases b with
    | mk db => exact List.length_append da db

theorem str_append_ne_empty_right (a b : String) (hb : b ≠ "") : a ++ b ≠ "" := by
  cases a with
  | mk da =>
    cases b with
    | mk db =>
      intro hc
      have hdata : da ++ db = [] := congrArg String.data hc
      rcases List.append_eq_nil.mp hdata with ⟨_, h2⟩
      exact hb (by rw [h2])

/-- The fallback summary always starts with the heading and ends with the
disclaimer, so it is never the empty string. -/
theorem simple_summary_ne_empty (t : String) : simple_summary t ≠ "" :=
  str_append_ne_empty_right _ _ (by decide)

/-- `mark_notified` does not change which ids are present. -/
theorem meeting_exists_mark_notified (db : List MeetingRow) (i t j : String) :
    meeting_exists (mark_notified db i t) j = meeting_exists db j := by
  induction db with
  | nil => rfl
  | cons r rs ih =>
    show (((if r.id == i then { r with notified_at := some t } else r).id == j)
        || meeting_exists (mark_notified rs i t) j) = ((r.id == j) || meeting_exists rs j)
    rw [ih]
    by_cases hc : r.id == i <;> simp [hc]

/-- Ids present in the table before an `INSERT` stay present. -/
theorem meeting_exists_append (db : List MeetingRow) (r : MeetingRow) (j : String) :
    meeting_exists (db ++ [r]) j = (meeting_exists db j || (r.id == j)) := by
  unfold meeting_exists
  rw [List.any_append]
  simp

/-- A row survives `mark_notified` with its id and summary intact (only
`notified_at` may change). -/
theorem mark_notified_preserves_row (db : List MeetingRow) (i t : String)
    (r : MeetingRow) (h : r ∈ db) :
    ∃ r2 ∈ mark_notified db i t, r2.id = r.id ∧ r2.summary = r.summary := by
  refine ⟨if r.id == i then { r with notified_at := some t } else r,
    List.mem_map_of_mem _ h, ?_⟩
  by_cases hc : r.id == i <;> simp [hc]

/-- `find?` returns the first element satisfying the predicate. -/
theorem find?_first_match {α} (p : α → Bool) (pre : List α) (x : α) (post : List α)
    (hpre : ∀ a ∈ pre, p a = false) (hx : p x = true) :
    (pre ++ x :: post).find? p = some x := by
  induction pre with
  | nil => exact List.find?_cons_of_pos post hx
  | cons a as ih =>
    have ha : ¬ p a := by simp [hpre a (by simp)]
    rw [List.cons_append, List.find?_cons_of_neg _ ha]
    exact ih (fun b hb => hpre b (by simp [hb]))

/-- When the id is new, `process_new_meeting` appends exactly one row and
returns the corresponding dictionary. -/
theorem process_new_meeting_eq (env : Env) (db : List MeetingRow) (md : MeetingData)
    (hex : meeting_exists db md.id = false) :
    process_new_meeting env db md =
      .ok (db ++ [new_row md (get_agenda_url env md.url)
                    (summary_for env md.id (get_agenda_url env md.url)) env.now],
           processed_of md (get_agenda_url env md.url)
             (summary_for env md.id (get_agenda_url env md.url))) := by
  unfold process_new_meeting save_meeting
  rw [hex]
  rfl

/-- Every summary computed for a meeting is one of the three sentinels or
an output of `summarize_agenda`. -/
theorem summary_for_cases (env : Env) (mid : String) (au : Option String) :
    summary_for env mid au = sentinel_no_agenda ∨
    summary_for env mid au = sentinel_download_failed ∨
    summary_for env mid au = sentinel_no_text ∨
    ∃ t, summary_for env mid au = summarize_agenda env.gemini_model t := by
  cases au with
  | none => exact Or.inl rfl
  | some a =>
    by_cases hd : env.downloadPdf a = true
    · cases hext : env.extractText (tempPdfPath mid) with
      | none =>
        refine Or.inr (Or.inr (Or.inl ?_))
        simp [summary_for, hd, hext]
      | some t =>
        by_cases hlen : 0 < t.length
        · refine Or.inr (Or.inr (Or.inr ⟨t, ?_⟩))
          simp [summary_for, hd, hext, hlen]
        · refine Or.inr (Or.inr (Or.inl ?_))
          simp [summary_for, hd, hext, hlen]
    · refine Or.inr (Or.inl ?_)
      simp [summary_for, hd]

/-- Outputs of `summarize_agenda` are fallback summaries or stripped
backend replies. -/
theorem summarize_agenda_cases (model : Option (String → Except Unit String))
    (t : String) :
    summarize_agenda model t = simple_summary t ∨
    ∃ g reply, model = some g ∧ g (geminiPrompt t) = .ok reply ∧
      summarize_agenda model t = pyStrip reply := by
  cases model with
  | none => exact Or.inl rfl
  | some g =>
    cases hr : g (geminiPrompt t) with
    | ok reply =>
      refine Or.inr ⟨g, reply, rfl, hr, ?_⟩
      show (match g (geminiPrompt t) with
            | Except.ok reply => pyStrip reply
            | Except.error _ => simple_summary t) = pyStrip reply
      rw [hr]
    | error e =>
      refine Or.inl ?_
      show (match g (geminiPrompt t) with
            | Except.ok reply => pyStrip reply
            | Except.error _ => simple_summary t) = simple_summary t
      rw [hr]

/-- Unfolding of the per-meeting loop on a cons cell (the discarded
`send_discord_notification` result disappears definitionally). -/
theorem run_check_cycle_loop_cons (env : Env) (w : Option String)
    (db : List MeetingRow) (md : MeetingData) (rest : List MeetingData) :
    run_check_cycle_loop env w db (md :: rest) =
      match process_new_meeting env db md with
      | .error e => .error e
      | .ok (db1, info) =>
        match run_check_cycle_loop env w
            (match w with
             | some _ => mark_notified db1 md.id env.now
             | none => db1) rest with
        | .error e => .error e
        | .ok (db3, ps) => .ok (db3, info :: ps) := by
  cases w <;> rfl

theorem run_check_cycle_loop_nil (env : Env) (w : Option String)
    (db : List MeetingRow) :
    run_check_cycle_loop env w db [] = .ok (db, []) := rfl

/-- A string of length `2 ^ n`, built by doubling (used to instantiate
statements about texts longer than the 100000-character budget without
materializing the string). -/
def pow2Str : Nat → String
  | 0 => "a"
  | n + 1 => pow2Str n ++ pow2Str n

theorem pow2Str_length (n : Nat) : (pow2Str n).length = 2 ^ n := by
  induction n with
  | zero => rfl
  | succ n ih => rw [pow2Str, str_length_append, ih, Nat.pow_succ]; omega

/-! ### Concrete environments and fixtures used by individual claims -/

/-- Environment whose `urljoin` returns the href unchanged; only discovery
data matters where it is used. -/
def idJoinEnv : Env :=
  { joinUrl := fun _ h => h
    fetchListing := .error ()
    fetchDetail := fun _ => .error ()
    downloadPdf := fun _ => false
    extractText := fun _ => none
    gemini_model := none
    notify := fun _ _ => false
    now := "T" }

def mdTen : MeetingData :=
  { id := "20260305-reg", date := "2026-03-05", meeting_type := "Regular Meeting"
    url := "https://x.gov/20260305-reg.htm", link_text := "Mar 5" }

/-- Detail page has links but none qualifying as an agenda link. -/
def envNoAgenda : Env :=
  { idJoinEnv with fetchDetail := fun _ => .ok [⟨"minutes.pdf", "Meeting Minutes"⟩] }

/-- Agenda link found but the PDF download fails. -/
def envDownloadFail : Env :=
  { idJoinEnv with fetchDetail := fun _ => .ok [⟨"agenda.pdf", "Agenda"⟩] }

/-- Agenda downloaded but text extraction yields nothing. -/
def envNoTextExtract : Env :=
  { idJoinEnv with
    fetchDetail := fun _ => .ok [⟨"agenda.pdf", "Agenda"⟩]
    downloadPdf := fun _ => true }

/-! ### C6 — id parsing and meeting-type labels -/

/-- C6: a listing link containing `/20260122-reg.htm` yields a candidate
with id `20260122-reg`, date `2026-01-22` and type label
`Regular Meeting`; the unknown lowercase code of `/20260122-xyz.htm`
yields label `XYZ`; every code in `type_map` maps to its fixed label and
every code outside the table passes through upper-cased. -/
theorem id_parsing_and_type_labels :
    extract_meeting_id ("/20260122-reg.htm") = some ("20260122-reg") ∧
    extract_meeting_id ("https://www.austintexas.gov/cc/20260122-reg.htm")
      = some ("20260122-reg") ∧
    check_for_new_meetings idJoinEnv ("base") []
        [⟨"/20260122-reg.htm", "Jan 22"⟩, ⟨"/20260122-xyz.htm", "Jan 22 x"⟩] =
      [{ id := "20260122-reg", date := "2026-01-22"
         meeting_type := "Regular Meeting", url := "/20260122-reg.htm"
         link_text := "Jan 22" },
       { id := "20260122-xyz", date := "2026-01-22"
         meeting_type := "XYZ", url := "/20260122-xyz.htm"
         link_text := "Jan 22 x" }] ∧
    format_meeting_type ("reg") = "Regular Meeting" ∧
    format_meeting_type ("xyz") = pyUpper ("xyz") ∧
    (∀ code : String, type_map.lookup code = none →
      format_meeting_type code = pyUpper code) ∧
    (∀ p ∈ type_map, format_meeting_type p.1 = p.2) := by
  refine ⟨rfl, rfl, rfl, rfl, rfl, ?_, by decide⟩
  intro code h
  unfold format_meeting_type
  rw [h]

theorem id_parsing_and_type_labels_witness :
    type_map.lookup ("zz") = none ∧ format_meeting_type ("zz") = pyUpper ("zz") :=
  ⟨rfl, id_parsing_and_type_labels.2.2.2.2.2.1 ("zz") rfl⟩

/-! ### C7 — input truncation for the capable backend -/

/-- C7: `summarize_agenda` sends the capable backend the fixed prompt
prefix followed by exactly `agenda_text[:100000]`; that slice is a prefix
of the text of length `min 100000 (length text)`, so an over-long text is
cut to its first 100000 characters and a text of at most 100000
characters is sent unmodified. -/
theorem capable_backend_input_truncation (t : String) :
    (∀ g : String → Except Unit String,
      summarize_agenda (some g) t =
        match g (geminiPromptPrefix ++ pySlice t 100000) with
        | .ok reply => pyStrip reply
        | .error _ => simple_summary t) ∧
    pySlice t 100000 ++ pyDropSlice t 100000 = t ∧
    (pySlice t 100000).length = min 100000 t.length ∧
    (100000 < t.length → (pySlice t 100000).length = 100000) ∧
    (t.length ≤ 100000 → pySlice t 100000 = t) := by
  refine ⟨fun g => rfl, ?_, ?_, ?_, ?_⟩
  · show String.mk (t.data.take 100000 ++ t.data.drop 100000) = t
    rw [List.take_append_drop]
  · exact List.length_take _ _
  · intro h
    show (t.data.take 100000).length = 100000
    rw [List.length_take]
    exact Nat.min_eq_left (Nat.le_of_lt h)
  · intro h
    show String.mk (t.data.take 100000) = t
    rw [List.take_of_length_le h]

def bigAgendaText : String := pow2Str 17

theorem capable_backend_input_truncation_witness :
    (("abc" : String).length ≤ 100000 ∧ pySlice ("abc") 100000 = "abc") ∧
    (100000 < bigAgendaText.length ∧ (pySlice bigAgendaText 100000).length = 100000) := by
  have hbig : 100000 < bigAgendaText.length := by
    show 100000 < (pow2Str 17).length
    rw [pow2Str_length]
    norm_num
  exact ⟨⟨by decide, (capable_backend_input_truncation ("abc")).2.2.2.2 (by decide)⟩,
         ⟨hbig, (capable_backend_input_truncation bigAgendaText).2.2.2.1 hbig⟩⟩

/-! ### C10 — the three degraded outcomes persist distinct fixed sentinels -/

/-- C10: with no qualifying agenda link the persisted summary is the
"agenda not yet available" sentinel; with a failing download it is the
"failed to download" sentinel; with empty extraction it is the "unable to
extract" sentinel; the three sentinels are the documented strings,
pairwise distinct and non-empty. -/
theorem degraded_sentinels_distinct_and_fixed :
    process_new_meeting envNoAgenda [] mdTen =
      .ok ([new_row mdTen none sentinel_no_agenda ("T")],
           processed_of mdTen none sentinel_no_agenda) ∧
    process_new_meeting envDownloadFail [] mdTen =
      .ok ([new_row mdTen (some ("agenda.pdf")) sentinel_download_failed ("T")],
           processed_of mdTen (some ("agenda.pdf")) sentinel_download_failed) ∧
    process_new_meeting envNoTextExtract [] mdTen =
      .ok ([new_row mdTen (some ("agenda.pdf")) sentinel_no_text ("T")],
           processed_of mdTen (some ("agenda.pdf")) sentinel_no_text) ∧
    sentinel_no_agenda = "Agenda not yet available. Check back later." ∧
    sentinel_download_failed = "Failed to download agenda PDF" ∧
    sentinel_no_text = "Unable to extract text from agenda PDF" ∧
    sentinel_no_agenda ≠ sentinel_download_failed ∧
    sentinel_no_agenda ≠ sentinel_no_text ∧
    sentinel_download_failed ≠ sentinel_no_text ∧
    0 < sentinel_no_agenda.length ∧ 0 < sentinel_download_failed.length ∧
    0 < sentinel_no_text.length :=
  ⟨rfl, rfl, rfl, rfl, rfl, rfl, by decide, by decide, by decide,
   by decide, by decide, by decide⟩

/-! ### C1 — `notified_at` is written even when the notification fails -/

def envC1 : Env :=
  { idJoinEnv with
    fetchListing := .ok [⟨"/20260122-reg.htm", "Jan 22 Meeting"⟩] }

def infoC1 : Processed :=
  { id := "20260122-reg", date := "2026-01-22", meeting_type := "Regular Meeting"
    url := "/20260122-reg.htm", link_text := "Jan 22 Meeting"
    agenda_url := none, summary := sentinel_no_agenda }

def rowC1 : MeetingRow :=
  { id := "20260122-reg", date := "2026-01-22", meeting_type := "Regular Meeting"
    url := "/20260122-reg.htm", agenda_url := none
    summary := sentinel_no_agenda, discovered_at := "T", notified_at := some ("T") }

/-- C1: with a webhook configured, a run cycle in which the notification
call reports failure for the meeting still writes `notified_at`: the
orchestrator discards the boolean returned by
`send_discord_notification` and runs the `UPDATE ... SET notified_at`
unconditionally. -/
theorem notified_marked_even_on_failed_send :
    envC1.notify infoC1 ("hook") = false ∧
    run_check_cycle envC1 ("base") (some ("hook")) [] = .ok ([rowC1], [infoC1]) ∧
    rowC1.notified_at = some ("T") :=
  ⟨rfl, rfl, rfl⟩

/-! ### C2 — idempotent discovery, but no silent skip of duplicate creates -/

def rowDup : MeetingRow :=
  { id := "20260305-reg", date := "2026-03-05", meeting_type := "Regular Meeting"
    url := "https://x.gov/20260305-reg.htm", agenda_url := none
    summary := "s", discovered_at := "T0", notified_at := none }

/-- A listing page carrying the same new meeting link twice. -/
def envDupListing : Env :=
  { idJoinEnv with
    fetchListing := .ok [⟨"/20260305-reg.htm", "Mar 5"⟩,
                         ⟨"/20260305-reg.htm", "Mar 5"⟩] }

/-- C2 counterexample: an attempted duplicate create is not silently
skipped — `save_meeting` raises `DuplicateKey` when the id is already
stored, and a single cycle over a listing page that carries the same new
id twice aborts with that error instead of skipping the second create. -/
theorem duplicate_create_raises :
    save_meeting [rowDup] mdTen none ("s2") ("T1") = .error DbError.duplicateKey ∧
    run_check_cycle envDupListing ("base") none [] = .error DbError.duplicateKey :=
  ⟨rfl, rfl⟩

/-- C2 (amended): a second run over an unchanged listing page creates zero
new records, raises no error, and leaves the store untouched — because
ids already present are filtered out *before* any create is attempted
(not because a duplicate create would be skipped). -/
theorem second_cycle_over_unchanged_listing_noop (env : Env) (base : String)
    (w : Option String) (db : List MeetingRow) (links : List Link)
    (hok : env.fetchListing = .ok links)
    (hseen : ∀ l ∈ links, ((extract_meeting_id l.href).all
      (fun mid => meeting_exists db mid)) = true) :
    run_check_cycle env base w db = .ok (db, []) := by
  have hempty : ∀ ls : List Link,
      (∀ l ∈ ls, ((extract_meeting_id l.href).all
        (fun mid => meeting_exists db mid)) = true) →
      check_for_new_meetings env base db ls = [] := by
    intro ls
    induction ls with
    | nil => intro _; rfl
    | cons l rest ih =>
      intro hall
      have hl := hall l (List.mem_cons_self l rest)
      have hrest := fun x hx => hall x (List.mem_cons_of_mem l hx)
      unfold check_for_new_meetings at ih ⊢
      rw [List.filterMap_cons]
      cases hext : extract_meeting_id l.href with
      | none => exact ih hrest
      | some mid =>
        rw [hext] at hl
        simp only [Option.all_some] at hl
        simp [hl]
        exact List.filterMap_eq_nil_iff.mp (ih hrest)
  unfold run_check_cycle
  rw [hok]
  show run_check_cycle_loop env w db (check_for_new_meetings env base db links)
    = .ok (db, [])
  rw [hempty links hseen]
  exact run_check_cycle_loop_nil env w db

def rowSeen : MeetingRow :=
  { id := "20260122-reg", date := "2026-01-22", meeting_type := "Regular Meeting"
    url := "/20260122-reg.htm", agenda_url := none
    summary := sentinel_no_agenda, discovered_at := "T0", notified_at := none }

def envSeenListing : Env :=
  { idJoinEnv with fetchListing := .ok [⟨"/20260122-reg.htm", "Jan 22"⟩] }

theorem second_cycle_over_unchanged_listing_noop_witness :
    envSeenListing.fetchListing = .ok [⟨"/20260122-reg.htm", "Jan 22"⟩] ∧
    (∀ l ∈ [(⟨"/20260122-reg.htm", "Jan 22"⟩ : Link)],
      ((extract_meeting_id l.href).all
        (fun mid => meeting_exists [rowSeen] mid)) = true) ∧
    run_check_cycle envSeenListing ("base") none [rowSeen] = .ok ([rowSeen], []) :=
  ⟨rfl, by decide,
   second_cycle_over_unchanged_listing_noop envSeenListing ("base") none [rowSeen]
     [⟨"/20260122-reg.htm", "Jan 22"⟩] rfl (by decide)⟩

/-! ### C3 — summary non-emptiness -/

def mdBlank : MeetingData :=
  { id := "20260410-wrk", date := "2026-04-10", meeting_type := "Work Session"
    url := "https://x.gov/20260410-wrk.htm", link_text := "Apr 10" }

/-- Every sub-step succeeds but the capable backend replies with
whitespace only. -/
def envBlankReply : Env :=
  { idJoinEnv with
    fetchDetail := fun _ => .ok [⟨"agenda.pdf", "Agenda"⟩]
    downloadPdf := fun _ => true
    extractText := fun _ => some ("1. Approval of the minutes of the prior meeting")
    gemini_model := some (fun _ => .ok (" \n")) }

/-- C3 counterexample: a meeting whose agenda resolves, downloads and
extracts fine, but whose backend summary strips to the empty string, is
persisted with `summary = ""` of length 0. -/
theorem whitespace_reply_persists_empty_summary :
    process_new_meeting envBlankReply [] mdBlank =
      .ok ([new_row mdBlank (some ("agenda.pdf")) ("") ("T")],
           processed_of mdBlank (some ("agenda.pdf")) ("")) ∧
    (new_row mdBlank (some ("agenda.pdf")) ("") ("T")).summary.length = 0 :=
  ⟨rfl, rfl⟩

/-- C3 (amended): whenever every successful capable-backend reply strips
to a non-empty string — in particular whenever the backend is
unconfigured or fails, and in every degraded sub-step path — the
persisted summary of a processed meeting is non-empty; only a backend
reply that is entirely whitespace can persist an empty summary. -/
theorem summary_nonempty_unless_blank_backend_reply (env : Env)
    (db db2 : List MeetingRow) (md : MeetingData) (info : Processed)
    (hg : ∀ g, env.gemini_model = some g →
      ∀ p r, g p = .ok r → pyStrip r ≠ "")
    (h : process_new_meeting env db md = .ok (db2, info)) :
    info.summary ≠ "" ∧
    db2 = db ++ [new_row md info.agenda_url info.summary env.now] := by
  have hex : meeting_exists db md.id = false := by
    by_contra hc
    have hc' : meeting_exists db md.id = true := by
      cases hmd : meeting_exists db md.id with
      | true => rfl
      | false => exact absurd hmd hc
    unfold process_new_meeting save_meeting at h
    rw [hc'] at h
    exact absurd h (by simp)
  rw [process_new_meeting_eq env db md hex] at h
  have hinfo : info = processed_of md (get_agenda_url env md.url)
      (summary_for env md.id (get_agenda_url env md.url)) := by
    have := congrArg (fun x : Except DbError (List MeetingRow × Processed) =>
      match x with
      | .ok p => p.2
      | .error _ => info) h
    simpa using this.symm
  have hdb : db2 = db ++ [new_row md (get_agenda_url env md.url)
      (summary_for env md.id (get_agenda_url env md.url)) env.now] := by
    have := congrArg (fun x : Except DbError (List MeetingRow × Processed) =>
      match x with
      | .ok p => p.1
      | .error _ => db2) h
    simpa using this.symm
  have hsum_ne : summary_for env md.id (get_agenda_url env md.url) ≠ "" := by
    rcases summary_for_cases env md.id (get_agenda_url env md.url) with
      h1 | h2 | h3 | ⟨t, h4⟩
    · rw [h1]; decide
    · rw [h2]; decide
    · rw [h3]; decide
    · rw [h4]
      rcases summarize_agenda_cases env.gemini_model t with
        h5 | ⟨g, reply, hgm, hreply, h6⟩
      · rw [h5]; exact simple_summary_ne_empty t
      · rw [h6]; exact hg g hgm _ reply hreply
  subst hinfo
  subst hdb
  exact ⟨hsum_ne, rfl⟩

theorem summary_nonempty_unless_blank_backend_reply_witness :
    (∀ g, envNoAgenda.gemini_model = some g →
      ∀ p r, g p = .ok r → pyStrip r ≠ "") ∧
    (process_new_meeting envNoAgenda [] mdTen =
      .ok ([new_row mdTen none sentinel_no_agenda ("T")],
           processed_of mdTen none sentinel_no_agenda)) ∧
    (processed_of mdTen none sentinel_no_agenda).summary ≠ "" ∧
    [new_row mdTen none sentinel_no_agenda ("T")] =
      [] ++ [new_row mdTen
        (processed_of mdTen none sentinel_no_agenda).agenda_url
        (processed_of mdTen none sentinel_no_agenda).summary
        envNoAgenda.now] :=
  have hg : ∀ g, envNoAgenda.gemini_model = some g →
      ∀ p r, g p = .ok r → pyStrip r ≠ "" := fun _ hgm => nomatch hgm
  have happ := summary_nonempty_unless_blank_backend_reply envNoAgenda []
    [new_row mdTen none sentinel_no_agenda ("T")] mdTen
    (processed_of mdTen none sentinel_no_agenda) hg rfl
  ⟨hg, rfl, happ.1, happ.2⟩

/-! ### C5 — per-meeting failure isolation -/

/-- C5: when the detail-page fetch raises a transport error for meeting A
while meeting B follows it in the same candidate list (both ids new and
distinct), the per-meeting loop still persists both meetings — whatever
webhook configuration and whatever happens to B's own sub-steps — and A
is returned and persisted with the agenda-not-available sentinel as its
summary. -/
theorem per_meeting_failure_isolation (env : Env) (w : Option String)
    (db : List MeetingRow) (mdA mdB : MeetingData)
    (hA : env.fetchDetail mdA.url = .error ())
    (hAnew : meeting_exists db mdA.id = false)
    (hBnew : meeting_exists db mdB.id = false)
    (hne : mdA.id ≠ mdB.id) :
    ∃ db2 infoB,
      run_check_cycle_loop env w db [mdA, mdB] =
        .ok (db2, [processed_of mdA none sentinel_no_agenda, infoB]) ∧
      (∃ r ∈ db2, r.id = mdA.id ∧ r.summary = sentinel_no_agenda) ∧
      (∃ r ∈ db2, r.id = mdB.id) := by
  have hauA : get_agenda_url env mdA.url = none := by
    unfold get_agenda_url
    rw [hA]
  have hstepA : process_new_meeting env db mdA =
      .ok (db ++ [new_row mdA none sentinel_no_agenda env.now],
           processed_of mdA none sentinel_no_agenda) := by
    rw [process_new_meeting_eq env db mdA hAnew, hauA]
    rfl
  have hBnew1 : meeting_exists
      (db ++ [new_row mdA none sentinel_no_agenda env.now]) mdB.id = false := by
    rw [meeting_exists_append, hBnew]
    show (false || (mdA.id == mdB.id)) = false
    simp only [Bool.false_or]
    exact beq_eq_false_iff_ne.mpr hne
  cases w with
  | none =>
    have hstepB := process_new_meeting_eq env
      (db ++ [new_row mdA none sentinel_no_agenda env.now]) mdB hBnew1
    refine ⟨(db ++ [new_row mdA none sentinel_no_agenda env.now]) ++
        [new_row mdB (get_agenda_url env mdB.url)
          (summary_for env mdB.id (get_agenda_url env mdB.url)) env.now],
      processed_of mdB (get_agenda_url env mdB.url)
        (summary_for env mdB.id (get_agenda_url env mdB.url)), ?_, ?_, ?_⟩
    · simp only [run_check_cycle_loop_cons, hstepA, hstepB, run_check_cycle_loop_nil]
    · exact ⟨new_row mdA none sentinel_no_agenda env.now, by simp, rfl, rfl⟩
    · exact ⟨new_row mdB (get_agenda_url env mdB.url)
        (summary_for env mdB.id (get_agenda_url env mdB.url)) env.now, by simp, rfl⟩
  | some hook =>
    have hBnew1m : meeting_exists
        (mark_notified (db ++ [new_row mdA none sentinel_no_agenda env.now])
          mdA.id env.now) mdB.id = false := by
      rw [meeting_exists_mark_notified]
      exact hBnew1
    have hstepB := process_new_meeting_eq env
      (mark_notified (db ++ [new_row mdA none sentinel_no_agenda env.now])
        mdA.id env.now) mdB hBnew1m
    refine ⟨mark_notified
        ((mark_notified (db ++ [new_row mdA none sentinel_no_agenda env.now])
            mdA.id env.now) ++
          [new_row mdB (get_agenda_url env mdB.url)
            (summary_for env mdB.id (get_agenda_url env mdB.url)) env.now])
        mdB.id env.now,
      processed_of mdB (get_agenda_url env mdB.url)
        (summary_for env mdB.id (get_agenda_url env mdB.url)), ?_, ?_, ?_⟩
    · simp only [run_check_cycle_loop_cons, hstepA, hstepB, run_check_cycle_loop_nil]
    · obtain ⟨r2, hr2mem, hr2id, hr2sum⟩ := mark_notified_preserves_row
        (db ++ [new_row mdA none sentinel_no_agenda env.now]) mdA.id env.now
        (new_row mdA none sentinel_no_agenda env.now) (by simp)
      obtain ⟨r3, hr3mem, hr3id, hr3sum⟩ := mark_notified_preserves_row _ mdB.id env.now
        r2 (List.mem_append_left _ hr2mem)
      exact ⟨r3, hr3mem, by simp [hr3id, hr2id, new_row], by simp [hr3sum, hr2sum, new_row]⟩
    · obtain ⟨r4, hr4mem, hr4id, _⟩ := mark_notified_preserves_row _ mdB.id env.now
        (new_row mdB (get_agenda_url env mdB.url)
          (summary_for env mdB.id (get_agenda_url env mdB.url)) env.now)
        (List.mem_append_right _ (List.mem_singleton_self _))
      exact ⟨r4, hr4mem, by simp [hr4id, new_row]⟩

/-- Environment for the isolation witness: the detail fetch raises exactly
for meeting A's page and succeeds for B's. -/
def envIso : Env :=
  { idJoinEnv with
    fetchDetail := fun u => if u = "https://x.gov/20260305-reg.htm" then .error ()
                            else .ok [⟨"agenda.pdf", "Agenda"⟩]
    downloadPdf := fun _ => true
    extractText := fun _ => some ("Zoning cases and public hearings for the month") }

theorem per_meeting_failure_isolation_witness :
    envIso.fetchDetail mdTen.url = .error () ∧
    meeting_exists [] mdTen.id = false ∧
    meeting_exists [] mdBlank.id = false ∧
    mdTen.id ≠ mdBlank.id ∧
    (∃ db2 infoB,
      run_check_cycle_loop envIso none [] [mdTen, mdBlank] =
        .ok (db2, [processed_of mdTen none sentinel_no_agenda, infoB]) ∧
      (∃ r ∈ db2, r.id = mdTen.id ∧ r.summary = sentinel_no_agenda) ∧
      (∃ r ∈ db2, r.id = mdBlank.id)) :=
  ⟨rfl, rfl, rfl, by decide,
   per_meeting_failure_isolation envIso none [] mdTen mdBlank rfl rfl rfl (by decide)⟩

/-! ### C8 — agenda resolver: first qualifying link or absent -/

/-- C8: `get_agenda_url` returns `none` (absent, not an error) when the
detail-page fetch fails or when no link both mentions "agenda"
case-insensitively and looks like a document target; and when the page
splits as `pre ++ x :: post` with nothing in `pre` qualifying and `x`
qualifying, it returns the absolutized target of exactly `x` — first
match in document order wins. -/
theorem agenda_resolver_first_match (env : Env) (u : String) :
    (∀ e : Unit, env.fetchDetail u = .error e → get_agenda_url env u = none) ∧
    (∀ links : List Link, env.fetchDetail u = .ok links →
      ((∀ l ∈ links, agenda_link_pred l = false) → get_agenda_url env u = none) ∧
      (∀ pre x post, links = pre ++ x :: post → agenda_link_pred x = true →
        (∀ l ∈ pre, agenda_link_pred l = false) →
        get_agenda_url env u = some (env.joinUrl u x.href))) := by
  constructor
  · intro e he
    unfold get_agenda_url
    rw [he]
  · intro links hl
    constructor
    · intro hnone
      unfold get_agenda_url
      rw [hl]
      have hfind : links.find? agenda_link_pred = none :=
        List.find?_eq_none.mpr (by
          intro x hx
          simp [hnone x hx])
      show (links.find? agenda_link_pred).map (fun l => env.joinUrl u l.href) = none
      rw [hfind]
      rfl
    · intro pre x post hsplit hx hpre
      unfold get_agenda_url
      rw [hl, hsplit]
      show ((pre ++ x :: post).find? agenda_link_pred).map
        (fun l => env.joinUrl u l.href) = some (env.joinUrl u x.href)
      rw [find?_first_match agenda_link_pred pre x post hpre hx]
      rfl

def wLinks8 : List Link :=
  [⟨"styles.css", "Agenda styles"⟩,
   ⟨"document.cfm?id=445&dept=1", "View the Agenda"⟩,
   ⟨"agenda.pdf", "Agenda"⟩]

def envFirstMatch : Env :=
  { idJoinEnv with fetchDetail := fun _ => .ok wLinks8 }

theorem agenda_resolver_first_match_witness :
    envFirstMatch.fetchDetail ("u") = .ok wLinks8 ∧
    wLinks8 = [⟨"styles.css", "Agenda styles"⟩] ++
      (⟨"document.cfm?id=445&dept=1", "View the Agenda"⟩ : Link) ::
      [⟨"agenda.pdf", "Agenda"⟩] ∧
    agenda_link_pred ⟨"document.cfm?id=445&dept=1", "View the Agenda"⟩ = true ∧
    (∀ l ∈ [(⟨"styles.css", "Agenda styles"⟩ : Link)], agenda_link_pred l = false) ∧
    get_agenda_url envFirstMatch ("u") =
      some (envFirstMatch.joinUrl ("u") ("document.cfm?id=445&dept=1")) :=
  ⟨rfl, rfl, by decide, by decide,
   ((agenda_resolver_first_match envFirstMatch ("u")).2 wLinks8 rfl).2
     [⟨"styles.css", "Agenda styles"⟩]
     ⟨"document.cfm?id=445&dept=1", "View the Agenda"⟩
     [⟨"agenda.pdf", "Agenda"⟩] rfl (by decide) (by decide)⟩

/-! ### C9 — recent-meetings listing: bounded and sorted, ties unspecified -/

def rowTieA : MeetingRow :=
  { id := "20260101-reg", date := "2026-01-01", meeting_type := "Regular Meeting"
    url := "a", agenda_url := none, summary := "sa"
    discovered_at := "T0", notified_at := none }

def rowTieB : MeetingRow :=
  { id := "20260101-wrk", date := "2026-01-01", meeting_type := "Work Session"
    url := "b", agenda_url := none, summary := "sb"
    discovered_at := "T1", notified_at := none }

/-- C9 counterexample: with two rows sharing the date `2026-01-01`
inserted as A then B, the list `[B, A]` is an admissible answer of
`ORDER BY date DESC LIMIT 10` (the query has no secondary sort key), yet
it does not keep insertion order on the tie — the claimed tie-break is
not guaranteed by the code. -/
theorem tie_order_not_guaranteed_by_query :
    get_recent_meetings_post [rowTieA, rowTieB] 10 [rowTieB, rowTieA] ∧
    [rowTieB, rowTieA] ≠ stable_recent [rowTieA, rowTieB] 10 := by
  constructor
  · exact ⟨[rowTieB, rowTieA], by decide, by decide, rfl⟩
  · decide

/-- C9 (amended): every admissible answer of the recent-meetings query has
at most `limit` records and is ordered newest date first; the relative
order of records sharing a date is left unspecified by the query. -/
theorem recent_meetings_bounded_and_sorted (db : List MeetingRow) (limit : Nat)
    (r : List MeetingRow) (h : get_recent_meetings_post db limit r) :
    r.length ≤ limit ∧ List.Pairwise dateGe r := by
  obtain ⟨p, _, hsort, rfl⟩ := h
  exact ⟨List.length_take_le _ _, hsort.sublist (List.take_sublist _ _)⟩

theorem recent_meetings_bounded_and_sorted_witness :
    get_recent_meetings_post [rowTieA] 5 [rowTieA] ∧
    ([rowTieA] : List MeetingRow).length ≤ 5 ∧ List.Pairwise dateGe [rowTieA] :=
  have h : get_recent_meetings_post [rowTieA] 5 [rowTieA] :=
    ⟨[rowTieA], List.Perm.refl _, by decide, rfl⟩
  ⟨h, recent_meetings_bounded_and_sorted [rowTieA] 5 [rowTieA] h⟩

/-! ### C4 — fallback summarizer structure -/

/-- C4: for any text whose split has exactly 7 lines of which exactly the
four lines `a, b, c, d` (in original order) trim to more than 20
characters, the fallback summary is the fixed heading, then exactly four
bullets numbered 1 to 4 holding `a, b, c, d` each truncated to at most
150 characters plus an ellipsis, then the fixed disclaimer; the kept
lines are a subsequence of the trimmed input lines and each exceeds 20
characters. -/
theorem fallback_summary_seven_four (text a b c d : String)
    (_h7 : (pySplitNl text).length = 7)
    (h4 : simple_summary_lines text = [a, b, c, d]) :
    simple_summary text =
      ((((simpleHeading ++ bulletStr 1 a) ++ bulletStr 2 b) ++ bulletStr 3 c)
        ++ bulletStr 4 d) ++ simpleDisclaimer ∧
    bulletStr 1 a = "1. " ++ pySlice a 150 ++ "...\n" ∧
    bulletStr 2 b = "2. " ++ pySlice b 150 ++ "...\n" ∧
    bulletStr 3 c = "3. " ++ pySlice c 150 ++ "...\n" ∧
    bulletStr 4 d = "4. " ++ pySlice d 150 ++ "...\n" ∧
    List.Sublist [a, b, c, d] ((pySplitNl text).map pyStrip) ∧
    (∀ l ∈ [a, b, c, d], 20 < l.length) ∧
    (∀ l ∈ [a, b, c, d], (pySlice l 150).length ≤ 150) := by
  refine ⟨?_, rfl, rfl, rfl, rfl, ?_, ?_, ?_⟩
  · show addBullets simpleHeading 1 ((simple_summary_lines text).take 5)
      ++ simpleDisclaimer = _
    rw [h4]
    rfl
  · rw [← h4]
    simp only [simple_summary_lines]
    exact List.filter_sublist _
  · intro l hl
    rw [← h4] at hl
    simp only [simple_summary_lines] at hl
    have hp := (List.mem_filter.mp hl).2
    exact of_decide_eq_true hp
  · intro l _
    show (l.data.take 150).length ≤ 150
    exact List.length_take_le _ _

def wText : String :=
  "Call to order\nApprove the annual city budget ordinance amendments\nRecess\nPublic hearing on the proposed zoning changes downtown\nAdjourn\nBriefing from the transportation department staff\nDiscussion of the airport expansion project plan"

def wA : String := "Approve the annual city budget ordinance amendments"

def wB : String := "Public hearing on the proposed zoning changes downtown"

def wC : String := "Briefing from the transportation department staff"

def wD : String := "Discussion of the airport expansion project plan"

theorem fallback_summary_seven_four_witness :
    (pySplitNl wText).length = 7 ∧
    simple_summary_lines wText = [wA, wB, wC, wD] ∧
    (simple_summary wText =
      ((((simpleHeading ++ bulletStr 1 wA) ++ bulletStr 2 wB) ++ bulletStr 3 wC)
        ++ bulletStr 4 wD) ++ simpleDisclaimer ∧
    bulletStr 1 wA = "1. " ++ pySlice wA 150 ++ "...\n" ∧
    bulletStr 2 wB = "2. " ++ pySlice wB 150 ++ "...\n" ∧
    bulletStr 3 wC = "3. " ++ pySlice wC 150 ++ "...\n" ∧
    bulletStr 4 wD = "4. " ++ pySlice wD 150 ++ "...\n" ∧
    List.Sublist [wA, wB, wC, wD] ((pySplitNl wText).map pyStrip) ∧
    (∀ l ∈ [wA, wB, wC, wD], 20 < l.length) ∧
    (∀ l ∈ [wA, wB, wC, wD], (pySlice l 150).length ≤ 150)) :=
  ⟨by decide, by decide,
   fallback_summary_seven_four wText wA wB wC wD (by decide) (by decide)⟩

end AustinMonitor
